import Mathlib

/- Verification development for the sgnl-actions salesforce-add-to-permission-set
action.  The JavaScript sources (src/script.mjs together with the bundled
@sgnl-actions/utils helpers and the legacy variant of the module) are shallowly
embedded below: HTTP responses are explicit inputs, thrown errors are
`Except.error`, and the sequence of HTTP requests an entry point performs is
returned as an explicit trace list. -/

namespace SFAddPerm

/-! ## JavaScript string primitives used by the sources -/

/-- Char-list prefix test; model of `String.prototype.startsWith` for the
pattern argument.  `listPre p s` is true iff `p` is a prefix of `s`. -/
def listPre : List Char → List Char → Bool
  | [], _ => true
  | _ :: _, [] => false
  | a :: as, b :: bs => a == b && listPre as bs

/-- Model of JavaScript `s.startsWith(p)`. -/
def strStartsWith (s p : String) : Bool :=
  listPre p.data s.data

/-- Char-list substring test used to model `String.prototype.includes`. -/
def listContains : List Char → List Char → Bool
  | _, [] => true
  | [], _ :: _ => false
  | a :: as, p :: ps => listPre (p :: ps) (a :: as) || listContains as (p :: ps)

/-- Model of JavaScript `s.includes(sub)`. -/
def strIncludes (s sub : String) : Bool :=
  listContains s.data sub.data

/-- Model of JavaScript `s.endsWith('/')` (the only `endsWith` use in the
sources): true iff the last character is a slash. -/
def endsWithSlash (s : String) : Bool :=
  s.data.getLast? == some '/'

/-- Model of JavaScript `s.slice(0, -1)`: drop the final character. -/
def dropLastChar (s : String) : String :=
  String.mk s.data.dropLast

/-- JavaScript truthiness of an optional string value: `undefined`/absent and
the empty string are falsy, every other string is truthy. -/
def truthy : Option String → Bool
  | none => false
  | some s => s != ""

/-- JavaScript `a || b` on optional string values. -/
def jsOr (a b : Option String) : Option String :=
  if truthy a then a else b

/-- The base64 alphabet used by `btoa`. -/
def base64Chars : List Char :=
  "ABCDEFGHIJKLMNOPQRSTUVWXYZabcdefghijklmnopqrstuvwxyz0123456789+/".data

/-- Sextet to base64 character. -/
def b64c (n : Nat) : Char :=
  base64Chars.getD n 'A'

/-- Base64-encode a byte list, three bytes at a time, padding with `=`. -/
def base64Encode : List Nat → List Char
  | [] => []
  | [a] => [b64c (a / 4), b64c (a % 4 * 16), '=', '=']
  | [a, b] => [b64c (a / 4), b64c (a % 4 * 16 + b / 16), b64c (b % 16 * 4), '=']
  | a :: b :: c :: rest =>
      b64c (a / 4) :: b64c (a % 4 * 16 + b / 16) ::
        b64c (b % 16 * 4 + c / 64) :: b64c (c % 64) :: base64Encode rest

/-- Model of the platform `btoa` builtin used for Basic credentials. -/
def btoa (s : String) : String :=
  String.mk (base64Encode (s.toUTF8.toList.map (fun b => b.toNat)))

/-! ## Data model: parameters, context, responses -/

/-- Fields of `context.environment` read by the sources. -/
structure Environment where
  ADDRESS : Option String
  OAUTH2_CLIENT_CREDENTIALS_TOKEN_URL : Option String
  OAUTH2_CLIENT_CREDENTIALS_CLIENT_ID : Option String
  OAUTH2_CLIENT_CREDENTIALS_SCOPE : Option String
  OAUTH2_CLIENT_CREDENTIALS_AUDIENCE : Option String
  OAUTH2_CLIENT_CREDENTIALS_AUTH_STYLE : Option String
  deriving DecidableEq

/-- Fields of `context.secrets` read by the sources. -/
structure Secrets where
  BEARER_AUTH_TOKEN : Option String
  BASIC_USERNAME : Option String
  BASIC_PASSWORD : Option String
  OAUTH2_AUTHORIZATION_CODE_ACCESS_TOKEN : Option String
  OAUTH2_CLIENT_CREDENTIALS_CLIENT_SECRET : Option String
  deriving DecidableEq

/-- Execution context; `environment` and `secrets` may be absent
(the code defaults them with `|| {}`). -/
structure Context where
  environment : Option Environment
  secrets : Option Secrets
  deriving DecidableEq

/-- The empty environment object `{}`. -/
def Environment.empty : Environment :=
  ⟨none, none, none, none, none, none⟩

/-- The empty secrets object `{}`. -/
def Secrets.empty : Secrets :=
  ⟨none, none, none, none, none⟩

/-- The value of `context.environment || \x7b\x7d`. -/
def envOf (ctx : Context) : Environment :=
  ctx.environment.getD Environment.empty

/-- The value of `context.secrets || \x7b\x7d`. -/
def secretsOf (ctx : Context) : Secrets :=
  ctx.secrets.getD Secrets.empty

/-- Job input parameters of `invoke`. -/
structure Params where
  username : String
  permissionSetId : String
  address : Option String
  deriving DecidableEq

/-- One kind of outgoing HTTP request, recorded in the trace. -/
inductive RequestKind where
  | tokenFetch : RequestKind
  | userQuery : String → RequestKind
  | assignmentPost : String → String → RequestKind
  deriving DecidableEq

/-- Response of the OAuth2 client-credentials token endpoint:
status line, a rendering of the error body, and the parsed
`access_token` field of the JSON body. -/
structure TokenResponse where
  ok : Bool
  status : Nat
  statusText : String
  errorText : String
  access_token : Option String
  deriving DecidableEq

/-- One record of the SOQL user query result. -/
structure UserRecord where
  Id : String
  deriving DecidableEq

/-- Response of the SOQL user query: status line plus the parsed
`records` field of the JSON body (absent field modelled as `none`). -/
structure UserQueryResponse where
  ok : Bool
  status : Nat
  statusText : String
  records : Option (List UserRecord)
  deriving DecidableEq

/-- One element of the Salesforce error array returned with a 400. -/
structure SfError where
  errorCode : Option String
  message : Option String
  deriving DecidableEq

/-- Response of the PermissionSetAssignment POST.  `createdId` is the `id`
field of the 201 JSON body; `errors` is the JSON error array of a 400 body. -/
structure AssignResponse where
  status : Nat
  statusText : String
  createdId : Option String
  errors : List SfError
  deriving DecidableEq

/-- The object returned by a successful `invoke`. -/
structure InvokeResult where
  status : String
  username : String
  userId : String
  permissionSetId : String
  assignmentId : Option String
  address : String
  deriving DecidableEq

/-! ## Auth utilities (bundled `@sgnl-actions/utils`, src/unnamed/part_000) -/

/-- Model of `getClientCredentialsToken` from the bundled utils.  The scope, audience
and auth-style settings only shape the outgoing token request body, which is
not observed by any claim, so they are accepted and ignored here.  The second
component records whether the token fetch was actually issued. -/
def getClientCredentialsToken (tokenUrl clientId clientSecret : Option String)
    (_scope _audience _authStyle : Option String) (resp : TokenResponse) :
    Except String String × List RequestKind :=
  if truthy tokenUrl = false || truthy clientId = false || truthy clientSecret = false then
    (.error "OAuth2 Client Credentials flow requires tokenUrl, clientId, and clientSecret", [])
  else if resp.ok = false then
    (.error ("OAuth2 token request failed: " ++ toString resp.status ++ " "
        ++ resp.statusText ++ " - " ++ resp.errorText), [RequestKind.tokenFetch])
  else if truthy resp.access_token then
    (.ok (resp.access_token.getD ""), [RequestKind.tokenFetch])
  else
    (.error "No access_token in OAuth2 response", [RequestKind.tokenFetch])

/-- The repeated source idiom returning the token unchanged when it already
starts with the Bearer prefix and prepending that prefix otherwise. -/
def bearerize (token : String) : String :=
  if strStartsWith token "Bearer " then token else "Bearer " ++ token

/-- Model of `getAuthorizationHeader` from the bundled utils, with the token-endpoint
response passed in explicitly and the outgoing-request trace returned
alongside the result. -/
def getAuthorizationHeader (ctx : Context) (tr : TokenResponse) :
    Except String String × List RequestKind :=
  let env := envOf ctx
  let secrets := secretsOf ctx
  if truthy secrets.BEARER_AUTH_TOKEN then
    (.ok (bearerize (secrets.BEARER_AUTH_TOKEN.getD "")), [])
  else if truthy secrets.BASIC_PASSWORD && truthy secrets.BASIC_USERNAME then
    (.ok ("Basic " ++ btoa ((secrets.BASIC_USERNAME.getD "") ++ ":"
        ++ (secrets.BASIC_PASSWORD.getD ""))), [])
  else if truthy secrets.OAUTH2_AUTHORIZATION_CODE_ACCESS_TOKEN then
    (.ok (bearerize (secrets.OAUTH2_AUTHORIZATION_CODE_ACCESS_TOKEN.getD "")), [])
  else if truthy secrets.OAUTH2_CLIENT_CREDENTIALS_CLIENT_SECRET then
    if truthy env.OAUTH2_CLIENT_CREDENTIALS_TOKEN_URL = false
        || truthy env.OAUTH2_CLIENT_CREDENTIALS_CLIENT_ID = false then
      (.error "OAuth2 Client Credentials flow requires TOKEN_URL and CLIENT_ID in env", [])
    else
      match getClientCredentialsToken env.OAUTH2_CLIENT_CREDENTIALS_TOKEN_URL
          env.OAUTH2_CLIENT_CREDENTIALS_CLIENT_ID
          secrets.OAUTH2_CLIENT_CREDENTIALS_CLIENT_SECRET
          env.OAUTH2_CLIENT_CREDENTIALS_SCOPE
          env.OAUTH2_CLIENT_CREDENTIALS_AUDIENCE
          env.OAUTH2_CLIENT_CREDENTIALS_AUTH_STYLE tr with
      | (.ok t, reqs) => (.ok ("Bearer " ++ t), reqs)
      | (.error e, reqs) => (.error e, reqs)
  else
    (.error ("No authentication configured. Provide one of: BEARER_AUTH_TOKEN, "
        ++ "BASIC_USERNAME/BASIC_PASSWORD, OAUTH2_AUTHORIZATION_CODE_ACCESS_TOKEN, "
        ++ "or OAUTH2_CLIENT_CREDENTIALS_*"), [])

/-- Model of `getBaseURL` from the bundled utils. -/
def getBaseURL (p : Params) (ctx : Context) : Except String String :=
  let env := envOf ctx
  let address := jsOr p.address env.ADDRESS
  if truthy address then
    let a := address.getD ""
    .ok (if endsWithSlash a then dropLastChar a else a)
  else
    .error "No URL specified. Provide address parameter or ADDRESS environment variable"

/-! ## The action module (src/script.mjs) -/

/-- The code's classifier for a 400 body: some element of the error array has
`errorCode === 'DUPLICATE_VALUE'` or a message whose lowercasing contains
`'duplicate'`. -/
def isDuplicateError (errors : List SfError) : Bool :=
  errors.any (fun e =>
    e.errorCode == some "DUPLICATE_VALUE" ||
    (match e.message with
     | some m => strIncludes (String.toLower m) "duplicate"
     | none => false))

/-- The fallback error message: the message of element 0 of the error array
when present and non-empty, the text Unknown error otherwise. -/
def firstErrMessage : List SfError → String
  | [] => "Unknown error"
  | e :: _ =>
    match e.message with
    | some m => if m = "" then "Unknown error" else m
    | none => "Unknown error"

/-- The `invoke` entry point of src/script.mjs.  The token-endpoint, user-query
and assignment-POST responses are explicit inputs standing for what `fetch`
would produce; the second component is the trace of issued requests. -/
def invoke (p : Params) (ctx : Context) (tr : TokenResponse)
    (uq : UserQueryResponse) (ar : AssignResponse) :
    Except String InvokeResult × List RequestKind :=
  match getBaseURL p ctx with
  | .error e => (.error e, [])
  | .ok baseUrl =>
    match getAuthorizationHeader ctx tr with
    | (.error e, reqs0) => (.error e, reqs0)
    | (.ok _authHeader, reqs0) =>
      let u := p.username
      let reqs1 := reqs0 ++ [RequestKind.userQuery u]
      if uq.ok = false then
        (.error ("Failed to query user " ++ u ++ ": " ++ toString uq.status
            ++ " " ++ uq.statusText), reqs1)
      else
        match uq.records with
        | none => (.error ("User not found: " ++ u), reqs1)
        | some [] => (.error ("User not found: " ++ u), reqs1)
        | some (r :: _) =>
          let userId := r.Id
          let psId := p.permissionSetId
          let reqs2 := reqs1 ++ [RequestKind.assignmentPost userId psId]
          if ar.status = 201 then
            (.ok { status := "success", username := u, userId := userId,
                   permissionSetId := psId, assignmentId := ar.createdId,
                   address := baseUrl }, reqs2)
          else if ar.status = 400 then
            if isDuplicateError ar.errors then
              (.ok { status := "success", username := u, userId := userId,
                     permissionSetId := psId, assignmentId := none,
                     address := baseUrl }, reqs2)
            else
              (.error ("Failed to create permission set assignment: "
                  ++ firstErrMessage ar.errors), reqs2)
          else
            (.error ("Failed to create permission set assignment: "
                ++ toString ar.status ++ " " ++ ar.statusText), reqs2)

/-- The error object handed to the `error` entry point. -/
structure JobError where
  message : String
  deriving DecidableEq

/-- The object returned by the `error` entry point when it does not rethrow. -/
structure ErrorResult where
  status : String
  deriving DecidableEq

/-- The `error` entry point of src/script.mjs: it rethrows the incoming
error unconditionally. -/
def errorHandler (e : JobError) : Except JobError ErrorResult :=
  .error e

/-- The `error` entry point of the legacy variant of the module
(src/unnamed/part_001): substring-based retryable-vs-fatal classification. -/
def errorHandlerLegacy (e : JobError) : Except JobError ErrorResult :=
  let m := e.message
  if strIncludes m "429" || strIncludes m "502"
      || strIncludes m "503" || strIncludes m "504" then
    .ok { status := "retry_requested" }
  else if strIncludes m "401" || strIncludes m "403"
      || strIncludes m "is required" || strIncludes m "not found" then
    .error e
  else
    .ok { status := "retry_requested" }

/-- Parameters of the `halt` entry point. -/
structure HaltParams where
  reason : Option String
  username : Option String
  deriving DecidableEq

/-- The object returned by `halt`. -/
structure HaltResult where
  status : String
  username : String
  reason : Option String
  halted_at : String
  deriving DecidableEq

/-- The `halt` entry point of src/script.mjs.  `now` stands for
`new Date().toISOString()`.  It is a total function (the body contains no
throwing operation) and performs no HTTP request, so its trace is empty. -/
def halt (p : HaltParams) (now : String) : HaltResult × List RequestKind :=
  ({ status := "halted",
     username := if truthy p.username then p.username.getD "" else "unknown",
     reason := p.reason,
     halted_at := now }, [])

/-! ## Concrete fixtures (mirroring the repository's test data) -/

/-- A successful token-endpoint response. -/
def trEx : TokenResponse :=
  { ok := true, status := 200, statusText := "OK", errorText := "",
    access_token := some "cc-token" }

/-- A context configured with a bearer token, as in the test suite. -/
def ctxBearerEx : Context :=
  { environment := some { Environment.empty with
      ADDRESS := some "https://test.my.salesforce.com" },
    secrets := some { Secrets.empty with
      BEARER_AUTH_TOKEN := some "test-access-token" } }

/-- A context with neither secrets nor environment configured. -/
def ctxEmptyEx : Context :=
  { environment := some Environment.empty, secrets := some Secrets.empty }

/-- Job parameters used by the fixtures. -/
def pEx : Params :=
  { username := "test.user@example.com", permissionSetId := "0PS000000000001",
    address := none }

/-- The single user record returned by the fixture query. -/
def recEx : UserRecord := { Id := "005000000000001" }

/-- A successful user-query response with one record. -/
def uqOkEx : UserQueryResponse :=
  { ok := true, status := 200, statusText := "OK", records := some [recEx] }

/-- A failed (401) user-query response. -/
def uqFailEx : UserQueryResponse :=
  { ok := false, status := 401, statusText := "Unauthorized", records := none }

/-- An empty-result user-query response. -/
def uqEmptyEx : UserQueryResponse :=
  { ok := true, status := 200, statusText := "OK", records := some [] }

/-- A 201 assignment-POST response. -/
def ar201Ex : AssignResponse :=
  { status := 201, statusText := "Created", createdId := some "PSA000000000001",
    errors := [] }

/-- Parameters whose address carries a trailing slash, for the C9 witness. -/
def pSlashEx : Params :=
  { username := "u", permissionSetId := "ps",
    address := some "https://test.my.salesforce.com/" }

/-- A context whose bearer token already carries the 'Bearer ' prefix. -/
def ctxBearerPrefixedEx : Context :=
  { environment := some Environment.empty,
    secrets := some { Secrets.empty with BEARER_AUTH_TOKEN := some "Bearer abc" } }

/-- A 400 duplicate-assignment response. -/
def arDupEx : AssignResponse :=
  { status := 400, statusText := "Bad Request", createdId := none,
    errors := [{ errorCode := some "DUPLICATE_VALUE",
                 message := some "Duplicate permission set assignment" }] }

/-! ## Helper lemmas -/

theorem strdata_append (s t : String) : (s ++ t).data = s.data ++ t.data := by
  cases s; cases t; rfl

theorem str_append_assoc (a b c : String) : a ++ b ++ c = a ++ (b ++ c) := by
  cases a with
  | mk da =>
    cases b with
    | mk db =>
      cases c with
      | mk dc => exact congrArg String.mk (List.append_assoc da db dc)

theorem listPre_append : ∀ (p t : List Char), listPre p (p ++ t) = true
  | [], _ => rfl
  | a :: as, t => by simp [listPre, listPre_append as t]

theorem listPre_exists : ∀ {p s : List Char}, listPre p s = true → ∃ t, s = p ++ t
  | [], s, _ => ⟨s, rfl⟩
  | _ :: _, [], h => by simp [listPre] at h
  | a :: as, b :: bs, h => by
    simp only [listPre, Bool.and_eq_true, beq_iff_eq] at h
    obtain ⟨t, ht⟩ := listPre_exists h.2
    exact ⟨t, by simp [h.1, ht]⟩

theorem strStartsWith_append (p t : String) : strStartsWith (p ++ t) p = true := by
  simp only [strStartsWith, strdata_append]
  exact listPre_append _ _

theorem strStartsWith_exists {s p : String} (h : strStartsWith s p = true) :
    ∃ t, s = p ++ t := by
  obtain ⟨tl, htl⟩ := listPre_exists h
  refine ⟨String.mk tl, ?_⟩
  cases s with
  | mk ds =>
    cases p with
    | mk dp => exact congrArg String.mk htl

theorem getClientCredentialsToken_trace (a b c d e f : Option String)
    (tr : TokenResponse) :
    (getClientCredentialsToken a b c d e f tr).2 = [] ∨
    (getClientCredentialsToken a b c d e f tr).2 = [RequestKind.tokenFetch] := by
  unfold getClientCredentialsToken
  repeat' split
  all_goals simp

theorem getAuthorizationHeader_trace (ctx : Context) (tr : TokenResponse) :
    (getAuthorizationHeader ctx tr).2 = [] ∨
    (getAuthorizationHeader ctx tr).2 = [RequestKind.tokenFetch] := by
  unfold getAuthorizationHeader
  by_cases h1 : truthy (secretsOf ctx).BEARER_AUTH_TOKEN = true
  · simp [h1]
  by_cases h2 : truthy (secretsOf ctx).BASIC_PASSWORD = true
      ∧ truthy (secretsOf ctx).BASIC_USERNAME = true
  · simp [h1, h2]
  by_cases h3 : truthy (secretsOf ctx).OAUTH2_AUTHORIZATION_CODE_ACCESS_TOKEN = true
  · simp [h1, h2, h3]
  by_cases h4 : truthy (secretsOf ctx).OAUTH2_CLIENT_CREDENTIALS_CLIENT_SECRET = true
  · by_cases h5 : truthy (envOf ctx).OAUTH2_CLIENT_CREDENTIALS_TOKEN_URL = false
        ∨ truthy (envOf ctx).OAUTH2_CLIENT_CREDENTIALS_CLIENT_ID = false
    · simp [h1, h2, h3, h4, h5]
    · rcases hcc : getClientCredentialsToken (envOf ctx).OAUTH2_CLIENT_CREDENTIALS_TOKEN_URL
          (envOf ctx).OAUTH2_CLIENT_CREDENTIALS_CLIENT_ID
          (secretsOf ctx).OAUTH2_CLIENT_CREDENTIALS_CLIENT_SECRET
          (envOf ctx).OAUTH2_CLIENT_CREDENTIALS_SCOPE
          (envOf ctx).OAUTH2_CLIENT_CREDENTIALS_AUDIENCE
          (envOf ctx).OAUTH2_CLIENT_CREDENTIALS_AUTH_STYLE tr with ⟨res, reqs⟩
      have htr := getClientCredentialsToken_trace
        (envOf ctx).OAUTH2_CLIENT_CREDENTIALS_TOKEN_URL
        (envOf ctx).OAUTH2_CLIENT_CREDENTIALS_CLIENT_ID
        (secretsOf ctx).OAUTH2_CLIENT_CREDENTIALS_CLIENT_SECRET
        (envOf ctx).OAUTH2_CLIENT_CREDENTIALS_SCOPE
        (envOf ctx).OAUTH2_CLIENT_CREDENTIALS_AUDIENCE
        (envOf ctx).OAUTH2_CLIENT_CREDENTIALS_AUTH_STYLE tr
      rw [hcc] at htr
      cases res <;> simp [h1, h2, h3, h4, h5, hcc] <;> simpa using htr
  · simp [h1, h2, h3, h4]

/-! ## Claim theorems -/

/-- C1: if the user query succeeds with at least one record and the
assignment POST returns status 400 whose JSON array body has some element
with errorCode 'DUPLICATE_VALUE' or a message containing 'duplicate'
case-insensitively, `invoke` does not throw and returns status 'success'
with a null assignmentId. -/
theorem C1_duplicate_400_success (p : Params) (ctx : Context) (tr : TokenResponse)
    (uq : UserQueryResponse) (ar : AssignResponse) (b a : String)
    (reqs0 : List RequestKind) (r : UserRecord) (rs : List UserRecord)
    (hb : getBaseURL p ctx = .ok b)
    (ha : getAuthorizationHeader ctx tr = (.ok a, reqs0))
    (hok : uq.ok = true)
    (hrec : uq.records = some (r :: rs))
    (hst : ar.status = 400)
    (hdup : ∃ e, e ∈ ar.errors ∧ (e.errorCode = some "DUPLICATE_VALUE" ∨
       ∃ m, e.message = some m ∧ strIncludes (String.toLower m) "duplicate" = true)) :
    (invoke p ctx tr uq ar).1 =
      .ok { status := "success", username := p.username, userId := r.Id,
            permissionSetId := p.permissionSetId, assignmentId := none,
            address := b } := by
  have hd : isDuplicateError ar.errors = true := by
    obtain ⟨e, he, hcase⟩ := hdup
    unfold isDuplicateError
    rw [List.any_eq_true]
    refine ⟨e, he, ?_⟩
    rcases hcase with h | ⟨m, hm, hinc⟩
    · simp [h]
    · simp [hm, hinc]
  simp [invoke, hb, ha, hok, hrec, hst, hd]

/-- Witness for C1 at the repository's duplicate-assignment fixture. -/
theorem C1_witness :
    (invoke pEx ctxBearerEx trEx uqOkEx arDupEx).1 =
      .ok { status := "success", username := "test.user@example.com",
            userId := "005000000000001", permissionSetId := "0PS000000000001",
            assignmentId := none, address := "https://test.my.salesforce.com" } :=
  C1_duplicate_400_success pEx ctxBearerEx trEx uqOkEx arDupEx
    "https://test.my.salesforce.com" "Bearer test-access-token" [] recEx []
    rfl rfl rfl rfl rfl
    ⟨{ errorCode := some "DUPLICATE_VALUE",
       message := some "Duplicate permission set assignment" },
     by simp [arDupEx], Or.inl rfl⟩

/-- C5: if the user query response is ok but its body has no records field or
an empty records list, `invoke` throws 'User not found: ' followed by the
input username. -/
theorem C5_user_not_found (p : Params) (ctx : Context) (tr : TokenResponse)
    (uq : UserQueryResponse) (ar : AssignResponse) (b a : String)
    (reqs0 : List RequestKind)
    (hb : getBaseURL p ctx = .ok b)
    (ha : getAuthorizationHeader ctx tr = (.ok a, reqs0))
    (hok : uq.ok = true)
    (hrec : uq.records = none ∨ uq.records = some []) :
    (invoke p ctx tr uq ar).1 = .error ("User not found: " ++ p.username) := by
  rcases hrec with h | h <;> simp [invoke, hb, ha, hok, h]

/-- Witness for C5 at the repository's empty-result fixture. -/
theorem C5_witness :
    (invoke pEx ctxBearerEx trEx uqEmptyEx ar201Ex).1 =
      .error ("User not found: " ++ "test.user@example.com") :=
  C5_user_not_found pEx ctxBearerEx trEx uqEmptyEx ar201Ex
    "https://test.my.salesforce.com" "Bearer test-access-token" []
    rfl rfl rfl (Or.inr rfl)

/-- C6: once the query returned a record, a 201 POST response yields status
'success' with assignmentId equal to the response body's id field, while a
non-duplicate 400 or any status other than 201/400 makes `invoke` throw an
error starting with 'Failed to create permission set assignment'. -/
theorem C6_assignment_outcomes (p : Params) (ctx : Context) (tr : TokenResponse)
    (uq : UserQueryResponse) (ar : AssignResponse) (b a : String)
    (reqs0 : List RequestKind) (r : UserRecord) (rs : List UserRecord)
    (hb : getBaseURL p ctx = .ok b)
    (ha : getAuthorizationHeader ctx tr = (.ok a, reqs0))
    (hok : uq.ok = true)
    (hrec : uq.records = some (r :: rs)) :
    (ar.status = 201 →
      (invoke p ctx tr uq ar).1 =
        .ok { status := "success", username := p.username, userId := r.Id,
              permissionSetId := p.permissionSetId, assignmentId := ar.createdId,
              address := b }) ∧
    (ar.status = 400 → isDuplicateError ar.errors = false →
      ∃ m, (invoke p ctx tr uq ar).1 = .error m ∧
        strStartsWith m "Failed to create permission set assignment" = true) ∧
    (ar.status ≠ 201 → ar.status ≠ 400 →
      ∃ m, (invoke p ctx tr uq ar).1 = .error m ∧
        strStartsWith m "Failed to create permission set assignment" = true) := by
  have hsplit : ("Failed to create permission set assignment: " : String) =
      "Failed to create permission set assignment" ++ ": " := rfl
  refine ⟨?_, ?_, ?_⟩
  · intro h201
    simp [invoke, hb, ha, hok, hrec, h201]
  · intro h400 hnd
    refine ⟨"Failed to create permission set assignment: "
      ++ firstErrMessage ar.errors, ?_, ?_⟩
    · simp [invoke, hb, ha, hok, hrec, h400, hnd]
    · rw [hsplit, str_append_assoc]
      exact strStartsWith_append _ _
  · intro h201 h400
    refine ⟨"Failed to create permission set assignment: "
      ++ toString ar.status ++ " " ++ ar.statusText, ?_, ?_⟩
    · simp [invoke, hb, ha, hok, hrec, h201, h400]
    · rw [hsplit]
      simp only [str_append_assoc]
      exact strStartsWith_append _ _

/-- Witness for C6 at the repository's 201 fixture. -/
theorem C6_witness :
    (invoke pEx ctxBearerEx trEx uqOkEx ar201Ex).1 =
      .ok { status := "success", username := "test.user@example.com",
            userId := "005000000000001", permissionSetId := "0PS000000000001",
            assignmentId := some "PSA000000000001",
            address := "https://test.my.salesforce.com" } :=
  (C6_assignment_outcomes pEx ctxBearerEx trEx uqOkEx ar201Ex
    "https://test.my.salesforce.com" "Bearer test-access-token" [] recEx []
    rfl rfl rfl rfl).1 rfl

/-- C7: `halt` never throws (it is a total function), performs no HTTP
request, and returns status 'halted', the incoming reason, and the incoming
username when truthy or 'unknown' otherwise. -/
theorem C7_halt_behavior (p : HaltParams) (now : String) :
    (halt p now).2 = [] ∧
    (halt p now).1.status = "halted" ∧
    (halt p now).1.reason = p.reason ∧
    (halt p now).1.halted_at = now ∧
    (truthy p.username = true → (halt p now).1.username = p.username.getD "") ∧
    (truthy p.username = false → (halt p now).1.username = "unknown") := by
  unfold halt
  refine ⟨rfl, rfl, rfl, rfl, ?_, ?_⟩ <;> intro h <;> simp [h]

/-- Witness for C7: a halt without username reports user 'unknown'. -/
theorem C7_witness :
    (halt { reason := some "system_shutdown", username := none } "t0").2 = [] ∧
    (halt { reason := some "system_shutdown", username := none } "t0").1.username
      = "unknown" :=
  ⟨(C7_halt_behavior { reason := some "system_shutdown", username := none } "t0").1,
   (C7_halt_behavior { reason := some "system_shutdown", username := none } "t0").2.2.2.2.2
     rfl⟩

/-- Replacing the user-query records beyond index 0 does not change the
outcome of `invoke`. -/
theorem invoke_tail_irrelevant (p : Params) (ctx : Context) (tr : TokenResponse)
    (uq : UserQueryResponse) (ar : AssignResponse) (r : UserRecord)
    (rs rs' : List UserRecord) (hR : uq.records = some (r :: rs)) :
    invoke p ctx tr { uq with records := some (r :: rs') } ar =
      invoke p ctx tr uq ar := by
  rcases hB : getBaseURL p ctx with e | b
  · simp [invoke, hB]
  rcases hA : getAuthorizationHeader ctx tr with ⟨res0, reqs0⟩
  cases res0 with
  | error e => simp [invoke, hB, hA]
  | ok authHeader =>
    cases hOk : uq.ok with
    | false => simp [invoke, hB, hA, hOk]
    | true => simp [invoke, hB, hA, hOk, hR]

/-- C8: whenever `invoke` returns, the result's username and permissionSetId
are the input parameters unchanged, its userId is the Id of the first record
of the user-query response, and records beyond index 0 never influence the
outcome. -/
theorem C8_result_passthrough (p : Params) (ctx : Context) (tr : TokenResponse)
    (uq : UserQueryResponse) (ar : AssignResponse) (res : InvokeResult)
    (h : (invoke p ctx tr uq ar).1 = .ok res) :
    res.username = p.username ∧
    res.permissionSetId = p.permissionSetId ∧
    (∃ r rs, uq.records = some (r :: rs) ∧ res.userId = r.Id) ∧
    (∀ r rs rs', uq.records = some (r :: rs) →
      invoke p ctx tr { uq with records := some (r :: rs') } ar =
        invoke p ctx tr uq ar) := by
  have hmain : res.username = p.username ∧ res.permissionSetId = p.permissionSetId ∧
      (∃ r rs, uq.records = some (r :: rs) ∧ res.userId = r.Id) := by
    rcases hB : getBaseURL p ctx with e | b
    · simp [invoke, hB] at h
    rcases hA : getAuthorizationHeader ctx tr with ⟨res0, reqs0⟩
    cases res0 with
    | error e => simp [invoke, hB, hA] at h
    | ok authHeader =>
      cases hOk : uq.ok with
      | false => simp [invoke, hB, hA, hOk] at h
      | true =>
        rcases hR : uq.records with _ | ⟨_ | ⟨r, rs⟩⟩
        · simp [invoke, hB, hA, hOk, hR] at h
        · simp [invoke, hB, hA, hOk, hR] at h
        · by_cases h201 : ar.status = 201
          · simp [invoke, hB, hA, hOk, hR, h201] at h
            refine ⟨?_, ?_, ⟨r, rs, rfl, ?_⟩⟩ <;> simp [← h]
          · by_cases h400 : ar.status = 400
            · by_cases hdup : isDuplicateError ar.errors = true
              · simp [invoke, hB, hA, hOk, hR, h201, h400, hdup] at h
                refine ⟨?_, ?_, ⟨r, rs, rfl, ?_⟩⟩ <;> simp [← h]
              · simp [invoke, hB, hA, hOk, hR, h201, h400, hdup] at h
            · simp [invoke, hB, hA, hOk, hR, h201, h400] at h
  exact ⟨hmain.1, hmain.2.1, hmain.2.2,
    fun r rs rs' hR => invoke_tail_irrelevant p ctx tr uq ar r rs rs' hR⟩

/-- Witness for C8 at the repository's 201 fixture. -/
theorem C8_witness :
    ({ status := "success", username := "test.user@example.com",
       userId := "005000000000001", permissionSetId := "0PS000000000001",
       assignmentId := some "PSA000000000001",
       address := "https://test.my.salesforce.com" } : InvokeResult).username
        = pEx.username ∧
    ({ status := "success", username := "test.user@example.com",
       userId := "005000000000001", permissionSetId := "0PS000000000001",
       assignmentId := some "PSA000000000001",
       address := "https://test.my.salesforce.com" } : InvokeResult).permissionSetId
        = pEx.permissionSetId :=
  ⟨(C8_result_passthrough pEx ctxBearerEx trEx uqOkEx ar201Ex _ rfl).1,
   (C8_result_passthrough pEx ctxBearerEx trEx uqOkEx ar201Ex _ rfl).2.1⟩

/-- C2: `getAuthorizationHeader` selects among the four authentication
schemes in priority order bearer token, basic credentials, OAuth2
authorization-code access token, OAuth2 client credentials, and throws
'No authentication configured' when none applies. -/
theorem C2_auth_scheme_priority (ctx : Context) (tr : TokenResponse) :
    (truthy (secretsOf ctx).BEARER_AUTH_TOKEN = true →
      (getAuthorizationHeader ctx tr).1 =
        .ok (bearerize ((secretsOf ctx).BEARER_AUTH_TOKEN.getD ""))) ∧
    (truthy (secretsOf ctx).BEARER_AUTH_TOKEN = false →
     truthy (secretsOf ctx).BASIC_PASSWORD = true →
     truthy (secretsOf ctx).BASIC_USERNAME = true →
      (getAuthorizationHeader ctx tr).1 =
        .ok ("Basic " ++ btoa (((secretsOf ctx).BASIC_USERNAME.getD "") ++ ":"
          ++ ((secretsOf ctx).BASIC_PASSWORD.getD "")))) ∧
    (truthy (secretsOf ctx).BEARER_AUTH_TOKEN = false →
     ¬(truthy (secretsOf ctx).BASIC_PASSWORD = true ∧
       truthy (secretsOf ctx).BASIC_USERNAME = true) →
     truthy (secretsOf ctx).OAUTH2_AUTHORIZATION_CODE_ACCESS_TOKEN = true →
      (getAuthorizationHeader ctx tr).1 =
        .ok (bearerize ((secretsOf ctx).OAUTH2_AUTHORIZATION_CODE_ACCESS_TOKEN.getD ""))) ∧
    (truthy (secretsOf ctx).BEARER_AUTH_TOKEN = false →
     ¬(truthy (secretsOf ctx).BASIC_PASSWORD = true ∧
       truthy (secretsOf ctx).BASIC_USERNAME = true) →
     truthy (secretsOf ctx).OAUTH2_AUTHORIZATION_CODE_ACCESS_TOKEN = false →
     truthy (secretsOf ctx).OAUTH2_CLIENT_CREDENTIALS_CLIENT_SECRET = true →
      ((¬(truthy (envOf ctx).OAUTH2_CLIENT_CREDENTIALS_TOKEN_URL = true ∧
          truthy (envOf ctx).OAUTH2_CLIENT_CREDENTIALS_CLIENT_ID = true) →
        (getAuthorizationHeader ctx tr).1 =
          .error "OAuth2 Client Credentials flow requires TOKEN_URL and CLIENT_ID in env") ∧
       (truthy (envOf ctx).OAUTH2_CLIENT_CREDENTIALS_TOKEN_URL = true →
        truthy (envOf ctx).OAUTH2_CLIENT_CREDENTIALS_CLIENT_ID = true →
        (getAuthorizationHeader ctx tr).1 =
          Except.map (fun t => "Bearer " ++ t)
            (getClientCredentialsToken
              (envOf ctx).OAUTH2_CLIENT_CREDENTIALS_TOKEN_URL
              (envOf ctx).OAUTH2_CLIENT_CREDENTIALS_CLIENT_ID
              (secretsOf ctx).OAUTH2_CLIENT_CREDENTIALS_CLIENT_SECRET
              (envOf ctx).OAUTH2_CLIENT_CREDENTIALS_SCOPE
              (envOf ctx).OAUTH2_CLIENT_CREDENTIALS_AUDIENCE
              (envOf ctx).OAUTH2_CLIENT_CREDENTIALS_AUTH_STYLE tr).1))) ∧
    (truthy (secretsOf ctx).BEARER_AUTH_TOKEN = false →
     ¬(truthy (secretsOf ctx).BASIC_PASSWORD = true ∧
       truthy (secretsOf ctx).BASIC_USERNAME = true) →
     truthy (secretsOf ctx).OAUTH2_AUTHORIZATION_CODE_ACCESS_TOKEN = false →
     truthy (secretsOf ctx).OAUTH2_CLIENT_CREDENTIALS_CLIENT_SECRET = false →
      ∃ m, (getAuthorizationHeader ctx tr).1 = .error m ∧
        strIncludes m "No authentication configured" = true) := by
  refine ⟨?_, ?_, ?_, ?_, ?_⟩
  · intro h1
    simp [getAuthorizationHeader, h1]
  · intro h1 h2 h3
    simp [getAuthorizationHeader, h1, h2, h3]
  · intro h1 h2 h3
    simp [getAuthorizationHeader, h1, h2, h3]
  · intro h1 h2 h3 h4
    constructor
    · intro h5
      cases hu : truthy (envOf ctx).OAUTH2_CLIENT_CREDENTIALS_TOKEN_URL with
      | false => simp [getAuthorizationHeader, h1, h2, h3, h4, hu]
      | true =>
        cases hc : truthy (envOf ctx).OAUTH2_CLIENT_CREDENTIALS_CLIENT_ID with
        | false => simp [getAuthorizationHeader, h1, h2, h3, h4, hu, hc]
        | true => exact absurd ⟨hu, hc⟩ h5
    · intro h5 h6
      rcases hcc : getClientCredentialsToken
          (envOf ctx).OAUTH2_CLIENT_CREDENTIALS_TOKEN_URL
          (envOf ctx).OAUTH2_CLIENT_CREDENTIALS_CLIENT_ID
          (secretsOf ctx).OAUTH2_CLIENT_CREDENTIALS_CLIENT_SECRET
          (envOf ctx).OAUTH2_CLIENT_CREDENTIALS_SCOPE
          (envOf ctx).OAUTH2_CLIENT_CREDENTIALS_AUDIENCE
          (envOf ctx).OAUTH2_CLIENT_CREDENTIALS_AUTH_STYLE tr with ⟨res, reqs⟩
      cases res <;> simp [getAuthorizationHeader, h1, h2, h3, h4, h5, h6, hcc, Except.map]
  · intro h1 h2 h3 h4
    refine ⟨"No authentication configured. Provide one of: BEARER_AUTH_TOKEN, "
        ++ "BASIC_USERNAME/BASIC_PASSWORD, OAUTH2_AUTHORIZATION_CODE_ACCESS_TOKEN, "
        ++ "or OAUTH2_CLIENT_CREDENTIALS_*", ?_, ?_⟩
    · simp [getAuthorizationHeader, h1, h2, h3, h4]
    · rfl

/-- Witness for C2: a bearer-token-only context selects the bearer scheme. -/
theorem C2_witness :
    (getAuthorizationHeader ctxBearerEx trEx).1 =
      .ok (bearerize ((secretsOf ctxBearerEx).BEARER_AUTH_TOKEN.getD "")) :=
  (C2_auth_scheme_priority ctxBearerEx trEx).1 rfl

/-- C3 counterexample: the `error` entry point of the shipped module
(src/script.mjs) rethrows an error whose message contains '429' instead of
returning a retry_requested result, falsifying the claim as stated. -/
theorem C3_counterexample :
    strIncludes "Failed to query user u: 429 Too Many Requests" "429" = true ∧
    errorHandler { message := "Failed to query user u: 429 Too Many Requests" } =
      .error { message := "Failed to query user u: 429 Too Many Requests" } ∧
    errorHandler { message := "Failed to query user u: 429 Too Many Requests" } ≠
      .ok { status := "retry_requested" } :=
  ⟨by decide, rfl, fun h => Except.noConfusion h⟩

/-- C3 (amended): the `error` entry point of the shipped module rethrows every
incoming error unchanged; the substring-based classification the claim
describes (429/502/503/504 → retry_requested; otherwise 401/403/'is
required'/'not found' → rethrow; anything else → retry_requested) is the
behavior of the legacy variant's error handler (src/unnamed/part_001). -/
theorem C3_amended_error_classification (e : JobError) :
    errorHandler e = .error e ∧
    ((strIncludes e.message "429" || strIncludes e.message "502"
      || strIncludes e.message "503" || strIncludes e.message "504") = true →
      errorHandlerLegacy e = .ok { status := "retry_requested" }) ∧
    ((strIncludes e.message "429" || strIncludes e.message "502"
      || strIncludes e.message "503" || strIncludes e.message "504") = false →
     (strIncludes e.message "401" || strIncludes e.message "403"
      || strIncludes e.message "is required"
      || strIncludes e.message "not found") = true →
      errorHandlerLegacy e = .error e) ∧
    ((strIncludes e.message "429" || strIncludes e.message "502"
      || strIncludes e.message "503" || strIncludes e.message "504") = false →
     (strIncludes e.message "401" || strIncludes e.message "403"
      || strIncludes e.message "is required"
      || strIncludes e.message "not found") = false →
      errorHandlerLegacy e = .ok { status := "retry_requested" }) := by
  refine ⟨rfl, ?_, ?_, ?_⟩
  · intro h
    simp [errorHandlerLegacy, h]
  · intro h1 h2
    simp [errorHandlerLegacy, h1, h2]
  · intro h1 h2
    simp [errorHandlerLegacy, h1, h2]

/-- Witness for C3 (amended): a 503 message makes the legacy handler request
a retry, while the shipped handler rethrows it. -/
theorem C3_amended_witness :
    errorHandlerLegacy { message := "server said 503" } =
      .ok { status := "retry_requested" } :=
  (C3_amended_error_classification { message := "server said 503" }).2.1 (by decide)

/-- Removing the final slash and appending one back restores the original
string: `slice(0, -1)` removes exactly one trailing slash. -/
theorem dropLastChar_append_slash {a : String} (h : endsWithSlash a = true) :
    dropLastChar a ++ "/" = a := by
  cases a with
  | mk l =>
    have hl : l.getLast? = some '/' := by
      have := h
      simp only [endsWithSlash] at this
      exact beq_iff_eq.mp this
    have hm : '/' ∈ l.getLast? := by
      rw [hl]; rfl
    show String.mk (l.dropLast ++ ['/']) = String.mk l
    exact congrArg String.mk (List.dropLast_append_getLast? _ hm)

/-- C9: `getBaseURL` prefers params.address over environment ADDRESS, removes
exactly one trailing slash when present, returns the value unchanged
otherwise, and throws 'No URL specified' when both are absent or empty. -/
theorem C9_getBaseURL_behavior (p : Params) (ctx : Context) :
    (∀ a, p.address = some a → a ≠ "" →
      ((endsWithSlash a = true ∧
        ∃ b, getBaseURL p ctx = .ok b ∧ b ++ "/" = a) ∨
       (endsWithSlash a = false ∧ getBaseURL p ctx = .ok a))) ∧
    (truthy p.address = false →
     ∀ a, (envOf ctx).ADDRESS = some a → a ≠ "" →
      ((endsWithSlash a = true ∧
        ∃ b, getBaseURL p ctx = .ok b ∧ b ++ "/" = a) ∨
       (endsWithSlash a = false ∧ getBaseURL p ctx = .ok a))) ∧
    (truthy p.address = false → truthy (envOf ctx).ADDRESS = false →
      ∃ m, getBaseURL p ctx = .error m ∧
        strIncludes m "No URL specified" = true) := by
  refine ⟨?_, ?_, ?_⟩
  · intro a hpa hne
    have ht : truthy (some a) = true := by simp [truthy, hne]
    cases hs : endsWithSlash a with
    | true =>
      refine Or.inl ⟨rfl, dropLastChar a, ?_, dropLastChar_append_slash hs⟩
      simp [getBaseURL, jsOr, hpa, ht, hs]
    | false =>
      refine Or.inr ⟨rfl, ?_⟩
      simp [getBaseURL, jsOr, hpa, ht, hs]
  · intro hpf a hea hne
    have ht : truthy (some a) = true := by simp [truthy, hne]
    cases hs : endsWithSlash a with
    | true =>
      refine Or.inl ⟨rfl, dropLastChar a, ?_, dropLastChar_append_slash hs⟩
      simp [getBaseURL, jsOr, hpf, hea, ht, hs]
    | false =>
      refine Or.inr ⟨rfl, ?_⟩
      simp [getBaseURL, jsOr, hpf, hea, ht, hs]
  · intro hpf hef
    refine ⟨"No URL specified. Provide address parameter or ADDRESS environment variable",
      ?_, ?_⟩
    · simp [getBaseURL, jsOr, hpf, hef]
    · rfl

/-- Witness for C9: a trailing-slash address has exactly that slash removed. -/
theorem C9_witness :
    (endsWithSlash "https://test.my.salesforce.com/" = true ∧
      ∃ b, getBaseURL pSlashEx ctxEmptyEx = .ok b ∧
        b ++ "/" = "https://test.my.salesforce.com/") ∨
    (endsWithSlash "https://test.my.salesforce.com/" = false ∧
      getBaseURL pSlashEx ctxEmptyEx = .ok "https://test.my.salesforce.com/") :=
  (C9_getBaseURL_behavior pSlashEx ctxEmptyEx).1
    "https://test.my.salesforce.com/" rfl (by decide)

/-- A value produced by `bearerize` always starts with 'Bearer '. -/
theorem bearerize_startsWith (t : String) :
    strStartsWith (bearerize t) "Bearer " = true := by
  unfold bearerize
  split
  · assumption
  · exact strStartsWith_append "Bearer " t

/-- C4: the permission-set-assignment POST appears in the request trace only
when the user query returned ok with a non-empty records list, and then right
after the query request; when the query response is not ok or has missing or
empty records, `invoke` throws and the POST is never issued. -/
theorem C4_post_only_after_query (p : Params) (ctx : Context) (tr : TokenResponse)
    (uq : UserQueryResponse) (ar : AssignResponse) :
    (∀ u ps, RequestKind.assignmentPost u ps ∈ (invoke p ctx tr uq ar).2 →
      uq.ok = true ∧
      ∃ pre r rs, uq.records = some (r :: rs) ∧ u = r.Id ∧
        ps = p.permissionSetId ∧
        (invoke p ctx tr uq ar).2 =
          pre ++ [RequestKind.userQuery p.username,
                  RequestKind.assignmentPost u ps]) ∧
    ((uq.ok = false ∨ uq.records = none ∨ uq.records = some []) →
      (∃ m, (invoke p ctx tr uq ar).1 = .error m) ∧
      ∀ u ps, RequestKind.assignmentPost u ps ∉ (invoke p ctx tr uq ar).2) := by
  rcases hB : getBaseURL p ctx with e | b
  · constructor
    · intro u ps hmem
      simp [invoke, hB] at hmem
    · intro _
      exact ⟨⟨e, by simp [invoke, hB]⟩,
        fun u ps hmem => by simp [invoke, hB] at hmem⟩
  rcases hA : getAuthorizationHeader ctx tr with ⟨res0, reqs0⟩
  have hnp : ∀ u ps, RequestKind.assignmentPost u ps ∉ reqs0 := by
    intro u ps hmem
    have htr := getAuthorizationHeader_trace ctx tr
    rw [hA] at htr
    rcases htr with h | h <;> simp only [] at h <;> rw [h] at hmem <;> simp at hmem
  cases res0 with
  | error e =>
    constructor
    · intro u ps hmem
      simp [invoke, hB, hA] at hmem
      exact absurd hmem (hnp u ps)
    · intro _
      refine ⟨⟨e, by simp [invoke, hB, hA]⟩, fun u ps hmem => ?_⟩
      simp [invoke, hB, hA] at hmem
      exact absurd hmem (hnp u ps)
  | ok authHeader =>
    cases hOk : uq.ok with
    | false =>
      constructor
      · intro u ps hmem
        simp [invoke, hB, hA, hOk] at hmem
        exact absurd hmem (hnp u ps)
      · intro _
        refine ⟨⟨"Failed to query user " ++ p.username ++ ": "
            ++ toString uq.status ++ " " ++ uq.statusText,
            by simp [invoke, hB, hA, hOk]⟩, fun u ps hmem => ?_⟩
        simp [invoke, hB, hA, hOk] at hmem
        exact absurd hmem (hnp u ps)
    | true =>
      rcases hR : uq.records with _ | ⟨_ | ⟨r, rs⟩⟩
      · constructor
        · intro u ps hmem
          simp [invoke, hB, hA, hOk, hR] at hmem
          exact absurd hmem (hnp u ps)
        · intro _
          refine ⟨⟨"User not found: " ++ p.username,
            by simp [invoke, hB, hA, hOk, hR]⟩, fun u ps hmem => ?_⟩
          simp [invoke, hB, hA, hOk, hR] at hmem
          exact absurd hmem (hnp u ps)
      · constructor
        · intro u ps hmem
          simp [invoke, hB, hA, hOk, hR] at hmem
          exact absurd hmem (hnp u ps)
        · intro _
          refine ⟨⟨"User not found: " ++ p.username,
            by simp [invoke, hB, hA, hOk, hR]⟩, fun u ps hmem => ?_⟩
          simp [invoke, hB, hA, hOk, hR] at hmem
          exact absurd hmem (hnp u ps)
      · have htrace : (invoke p ctx tr uq ar).2 =
            reqs0 ++ [RequestKind.userQuery p.username,
                      RequestKind.assignmentPost r.Id p.permissionSetId] := by
          by_cases h201 : ar.status = 201
          · simp [invoke, hB, hA, hOk, hR, h201]
          by_cases h400 : ar.status = 400
          · by_cases hdup : isDuplicateError ar.errors = true
            · simp [invoke, hB, hA, hOk, hR, h201, h400, hdup]
            · simp [invoke, hB, hA, hOk, hR, h201, h400, hdup]
          · simp [invoke, hB, hA, hOk, hR, h201, h400]
        constructor
        · intro u ps hmem
          rw [htrace] at hmem
          simp at hmem
          rcases hmem with hmem | ⟨hu, hps⟩
          · exact absurd hmem (hnp u ps)
          · subst hu
            subst hps
            exact ⟨rfl, reqs0, r, rs, rfl, rfl, rfl, htrace⟩
        · intro hcontra
          rcases hcontra with h | h | h
          · simp at h
          · simp at h
          · simp at h

/-- Witness for C4: with a failed user query, `invoke` throws and the
assignment POST is absent from the request trace. -/
theorem C4_witness :
    (∃ m, (invoke pEx ctxBearerEx trEx uqFailEx ar201Ex).1 = .error m) ∧
    ∀ u ps, RequestKind.assignmentPost u ps ∉
      (invoke pEx ctxBearerEx trEx uqFailEx ar201Ex).2 :=
  (C4_post_only_after_query pEx ctxBearerEx trEx uqFailEx ar201Ex).2 (Or.inl rfl)

/-- C10: every header value `getAuthorizationHeader` returns starts with
'Bearer ' or 'Basic '; in the bearer-token and authorization-code branches a
token already starting with 'Bearer ' is returned as-is and otherwise
'Bearer ' is prepended exactly once. -/
theorem C10_header_prefix_shape (ctx : Context) (tr : TokenResponse) :
    (∀ v, (getAuthorizationHeader ctx tr).1 = .ok v →
      (strStartsWith v "Bearer " = true ∨ strStartsWith v "Basic " = true)) ∧
    (∀ tok, (secretsOf ctx).BEARER_AUTH_TOKEN = some tok →
      truthy (some tok) = true →
      ((strStartsWith tok "Bearer " = true →
        (getAuthorizationHeader ctx tr).1 = .ok tok) ∧
       (strStartsWith tok "Bearer " = false →
        (getAuthorizationHeader ctx tr).1 = .ok ("Bearer " ++ tok)))) ∧
    (∀ tok, truthy (secretsOf ctx).BEARER_AUTH_TOKEN = false →
      ¬(truthy (secretsOf ctx).BASIC_PASSWORD = true ∧
        truthy (secretsOf ctx).BASIC_USERNAME = true) →
      (secretsOf ctx).OAUTH2_AUTHORIZATION_CODE_ACCESS_TOKEN = some tok →
      truthy (some tok) = true →
      ((strStartsWith tok "Bearer " = true →
        (getAuthorizationHeader ctx tr).1 = .ok tok) ∧
       (strStartsWith tok "Bearer " = false →
        (getAuthorizationHeader ctx tr).1 = .ok ("Bearer " ++ tok)))) := by
  refine ⟨?_, ?_, ?_⟩
  · intro v hv
    by_cases h1 : truthy (secretsOf ctx).BEARER_AUTH_TOKEN = true
    · simp [getAuthorizationHeader, h1] at hv
      exact Or.inl (hv ▸ bearerize_startsWith _)
    by_cases h2 : truthy (secretsOf ctx).BASIC_PASSWORD = true ∧
        truthy (secretsOf ctx).BASIC_USERNAME = true
    · simp [getAuthorizationHeader, h1, h2] at hv
      exact Or.inr (hv ▸ strStartsWith_append "Basic " _)
    by_cases h3 : truthy (secretsOf ctx).OAUTH2_AUTHORIZATION_CODE_ACCESS_TOKEN = true
    · simp [getAuthorizationHeader, h1, h2, h3] at hv
      exact Or.inl (hv ▸ bearerize_startsWith _)
    by_cases h4 : truthy (secretsOf ctx).OAUTH2_CLIENT_CREDENTIALS_CLIENT_SECRET = true
    · by_cases h5 : truthy (envOf ctx).OAUTH2_CLIENT_CREDENTIALS_TOKEN_URL = false ∨
          truthy (envOf ctx).OAUTH2_CLIENT_CREDENTIALS_CLIENT_ID = false
      · simp [getAuthorizationHeader, h1, h2, h3, h4, h5] at hv
      · rcases hcc : getClientCredentialsToken
            (envOf ctx).OAUTH2_CLIENT_CREDENTIALS_TOKEN_URL
            (envOf ctx).OAUTH2_CLIENT_CREDENTIALS_CLIENT_ID
            (secretsOf ctx).OAUTH2_CLIENT_CREDENTIALS_CLIENT_SECRET
            (envOf ctx).OAUTH2_CLIENT_CREDENTIALS_SCOPE
            (envOf ctx).OAUTH2_CLIENT_CREDENTIALS_AUDIENCE
            (envOf ctx).OAUTH2_CLIENT_CREDENTIALS_AUTH_STYLE tr with ⟨res, reqs⟩
        cases res with
        | error e => simp [getAuthorizationHeader, h1, h2, h3, h4, h5, hcc] at hv
        | ok t =>
          simp [getAuthorizationHeader, h1, h2, h3, h4, h5, hcc] at hv
          exact Or.inl (hv ▸ strStartsWith_append "Bearer " t)
    · simp [getAuthorizationHeader, h1, h2, h3, h4] at hv
  · intro tok htok htt
    have h1 : truthy (secretsOf ctx).BEARER_AUTH_TOKEN = true := by
      rw [htok]; exact htt
    constructor
    · intro hbs
      simp [getAuthorizationHeader, h1, htok, htt, bearerize, hbs]
    · intro hbs
      simp [getAuthorizationHeader, h1, htok, htt, bearerize, hbs]
  · intro tok h1 h2 htok htt
    have h3 : truthy (secretsOf ctx).OAUTH2_AUTHORIZATION_CODE_ACCESS_TOKEN = true := by
      rw [htok]; exact htt
    constructor
    · intro hbs
      simp [getAuthorizationHeader, h1, h2, h3, htok, htt, bearerize, hbs]
    · intro hbs
      simp [getAuthorizationHeader, h1, h2, h3, htok, htt, bearerize, hbs]

/-- Witness for C10: a token already carrying the 'Bearer ' prefix is
returned unchanged. -/
theorem C10_witness :
    (getAuthorizationHeader ctxBearerPrefixedEx trEx).1 = .ok "Bearer abc" :=
  ((C10_header_prefix_shape ctxBearerPrefixedEx trEx).2.1 "Bearer abc"
    rfl rfl).1 (by decide)

end SFAddPerm
